import Mathlib

/-!
Verification of the ESPHome media-player discovery script
(`esphome-discovery.py`).

The script is embedded shallowly: Python/JSON values become the `JSON`
inductive; the HTTP API is an `Oracle` assigning an `HttpResult` to every
request the script can issue; the two in-run caches are passed as explicit
association lists (most recent insertion first, so lookup of the first
match realises dict-overwrite semantics); Python statements that can raise
are modelled in `Except Unit`; stderr warnings and network calls are
counted explicitly so that logging and caching claims can be stated.
-/

/-- A Python value as produced by `response.json()` (numbers restricted to
integers, which suffices for the payloads this script manipulates). -/
inductive JSON where
  | null
  | bool (b : Bool)
  | num (n : Int)
  | str (s : String)
  | arr (elems : List JSON)
  | obj (fields : List (String × JSON))
deriving Repr

mutual

/-- Python `==` on JSON values: `True == 1` and `False == 0` hold, values of
otherwise different types are unequal, lists compare elementwise.  (Dict
comparison is modelled on the field list; the script never compares dicts.) -/
def pyEq : JSON → JSON → Bool
  | .null, .null => true
  | .bool a, .bool b => a == b
  | .bool a, .num n => (if a then (1 : Int) else 0) == n
  | .num n, .bool a => n == (if a then (1 : Int) else 0)
  | .num a, .num b => a == b
  | .str a, .str b => a == b
  | .arr xs, .arr ys => pyEqList xs ys
  | .obj xs, .obj ys => pyEqFields xs ys
  | _, _ => false

def pyEqList : List JSON → List JSON → Bool
  | [], [] => true
  | x :: xs, y :: ys => pyEq x y && pyEqList xs ys
  | _, _ => false

def pyEqFields : List (String × JSON) → List (String × JSON) → Bool
  | [], [] => true
  | (k, v) :: xs, (l, w) :: ys => k == l && pyEq v w && pyEqFields xs ys
  | _, _ => false

end

/-- Python `v == "s"` for a string literal right-hand side: only a `str`
with the same characters compares equal. -/
def isStrEq (v : JSON) (s : String) : Bool :=
  match v with
  | .str t => t == s
  | _ => false

/-- `d.get(key)` on a parsed-JSON dict (first matching field wins; parsed
Python dicts have unique keys). -/
def objGet (fields : List (String × JSON)) (key : String) : Option JSON :=
  (fields.find? (fun kv => kv.1 == key)).map (fun kv => kv.2)

/-- `d.get(key, default)`. -/
def objGetD (fields : List (String × JSON)) (key : String) (dflt : JSON) : JSON :=
  (objGet fields key).getD dflt

/-- `key in d`. -/
def hasKey (fields : List (String × JSON)) (key : String) : Bool :=
  (objGet fields key).isSome

/-- Python `s.startswith(p)` for strings, computed on the character
lists. -/
def strStartswith (s p : String) : Bool := p.data.isPrefixOf s.data

/-- Python truthiness of a JSON value. -/
def JSON.truthy : JSON → Bool
  | .null => false
  | .bool b => b
  | .num n => n != 0
  | .str s => !s.data.isEmpty
  | .arr xs => !xs.isEmpty
  | .obj fs => !fs.isEmpty

/-- `isinstance(v, dict)`. -/
def JSON.isDict : JSON → Bool
  | .obj _ => true
  | _ => false

/-- `v.startswith(p)`: raises `AttributeError` (modelled as `Except.error`)
when `v` is not a string. -/
def pyStartswith : JSON → String → Except Unit Bool
  | .str s, p => .ok (strStartswith s p)
  | _, _ => .error ()

/-- Outcome of one HTTP request as seen by the script: either a
`requests.exceptions.RequestException` raised by the call itself, or a
response with a status code and a body whose `.json()` parse may fail. -/
inductive HttpResult where
  | transportError
  | response (status : Nat) (body : Except Unit JSON)

/-- `requests` treats a status as an HTTP error iff it lies in 400-599:
`raise_for_status` raises exactly then, and `response.ok` is its negation. -/
def isHttpError (status : Nat) : Bool :=
  400 ≤ status && status < 600

/-- The `entity_registry_cache` dict (keys are the JSON values used by the
script; newest insertion first). -/
abbrev RegCache := List (JSON × JSON)

/-- The `diagnostics_cache` dict. -/
abbrev DiagCache := List (JSON × List JSON)

/-- Dict lookup in `entity_registry_cache` (Python `==` on keys, newest
insertion shadows older ones). -/
def lookupReg (cache : RegCache) (k : JSON) : Option JSON :=
  (cache.find? (fun kv => pyEq kv.1 k)).map (fun kv => kv.2)

/-- Dict lookup in `diagnostics_cache`. -/
def lookupDiag (cache : DiagCache) (k : JSON) : Option (List JSON) :=
  (cache.find? (fun kv => pyEq kv.1 k)).map (fun kv => kv.2)

/-- The environment: one `HttpResult` for every request the script can
issue during a run. -/
structure Oracle where
  /-- `POST /config/entity_registry/list` with body `{}`. -/
  registryList : HttpResult
  /-- `GET /config/entity_registry`. -/
  registryLegacy : HttpResult
  /-- `POST /config/entity_registry/get` for a given entity id. -/
  registryGetPost : String → HttpResult
  /-- `GET /config/entity_registry/entity/<entity_id>`. -/
  registryGetPath : String → HttpResult
  /-- `GET /diagnostics/config_entry/<config_entry_id>`. -/
  diagnostics : JSON → HttpResult
  /-- `GET /states`. -/
  states : HttpResult

/-- `normalize_registry_payload` (source lines 32-48): a list is returned
as-is; a dict yields `data` if it is a list, else `result.data` if `result`
is a dict and its `data` is a list, else `entries` if it is a list; every
other shape yields `[]`. -/
def normalize_registry_payload (payload_json : JSON) : List JSON :=
  match payload_json with
  | .arr xs => xs
  | .obj fs =>
    match objGet fs "data" with
    | some (.arr xs) => xs
    | _ =>
      match
        (match objGet fs "result" with
         | some (.obj rf) => objGet rf "data"
         | _ => none) with
      | some (.arr xs) => xs
      | _ =>
        match objGet fs "entries" with
        | some (.arr xs) => xs
        | _ => []
  | _ => []

/-- The list comprehension of source lines 81-87: keep
`entry.get('entity_id')` for every dict entry whose
`entry.get('entity_id', '').startswith('media_player.')` holds and whose
`entry.get('platform') == 'esphome'`; `startswith` on a non-string
`entity_id` value raises, aborting the whole comprehension. -/
def registryFilter : List JSON → Except Unit (List JSON)
  | [] => .ok []
  | .obj fs :: rest => do
      let sw ← pyStartswith (objGetD fs "entity_id" (.str "")) "media_player."
      let tail ← registryFilter rest
      if sw && isStrEq (objGetD fs "platform" .null) "esphome" then
        pure (objGetD fs "entity_id" .null :: tail)
      else
        pure tail
  | _ :: rest => registryFilter rest

/-- The caching loop of source lines 89-91: store every dict entry with a
truthy `entity_id` into `entity_registry_cache` keyed by that value. -/
def cacheEntries (entries : List JSON) (cache : RegCache) : RegCache :=
  entries.foldl
    (fun acc entry =>
      match entry with
      | .obj fs =>
          let eid := objGetD fs "entity_id" .null
          if eid.truthy then (eid, JSON.obj fs) :: acc else acc
      | _ => acc)
    cache

/-- Result of processing one bulk-registry endpoint attempt. -/
inductive AttemptOut where
  | stop (ids : List JSON) (cache : RegCache)
  | next (cache : RegCache) (warned : Bool)

/-- One iteration of the endpoint loop in
`fetch_entity_registry_media_players` (source lines 57-99): 405 advances
silently; a transport error, an HTTP error status (`raise_for_status`), a
body that fails to parse, or a raising filter comprehension logs a warning
and advances; otherwise the normalized entries are cached and the filtered
ids are returned when non-empty. -/
def registryAttempt (r : HttpResult) (cache : RegCache) : AttemptOut :=
  match r with
  | .transportError => .next cache true
  | .response status body =>
    if status == 405 then .next cache false
    else if isHttpError status then .next cache true
    else
      match body with
      | .error _ => .next cache true
      | .ok payload =>
        let entries := normalize_registry_payload payload
        match registryFilter entries with
        | .error _ => .next cache true
        | .ok ids =>
          let cache2 := cacheEntries entries cache
          if ids.isEmpty then .next cache2 false else .stop ids cache2

/-- `fetch_entity_registry_media_players` (source lines 50-101), returning
the id list, the updated registry cache, the number of warnings printed to
stderr, and the number of endpoint attempts issued. -/
def fetch_entity_registry_media_players (o : Oracle) (cache : RegCache) :
    List JSON × RegCache × Nat × Nat :=
  match registryAttempt o.registryList cache with
  | .stop ids c => (ids, c, 0, 1)
  | .next c w1 =>
    match registryAttempt o.registryLegacy c with
    | .stop ids c2 => (ids, c2, if w1 then 1 else 0, 2)
    | .next c2 w2 =>
        ([], c2, (if w1 then 1 else 0) + (if w2 then 1 else 0), 2)

/-- The payload descent of source lines 127-138: walk
`data.storage_data.media_player` with an `isinstance` guard at each level,
and collect, across all media players in order, the dict elements of each
`supported_formats` list. -/
def extractSupportedFormats (payload : JSON) : List JSON :=
  let data := match payload with | .obj fs => objGetD fs "data" .null | _ => .null
  let storage := match data with | .obj fs => objGetD fs "storage_data" .null | _ => .null
  let media_players := match storage with | .obj fs => objGetD fs "media_player" .null | _ => .null
  match media_players with
  | .arr mps =>
      mps.foldl
        (fun acc mp =>
          let formats := match mp with | .obj fs => objGetD fs "supported_formats" .null | _ => .null
          match formats with
          | .arr fmts => acc ++ fmts.filter JSON.isDict
          | _ => acc)
        []
  | _ => []

/-- `fetch_esphome_supported_formats` (source lines 105-149), returning the
format list, the updated diagnostics cache, the number of warnings printed
to stderr, and the number of network calls issued. -/
def fetch_esphome_supported_formats (o : Oracle) (cache : DiagCache)
    (config_entry_id : JSON) : List JSON × DiagCache × Nat × Nat :=
  if !config_entry_id.truthy then ([], cache, 0, 0)
  else
    match lookupDiag cache config_entry_id with
    | some fmts => (fmts, cache, 0, 0)
    | none =>
      match o.diagnostics config_entry_id with
      | .transportError => ([], (config_entry_id, []) :: cache, 1, 1)
      | .response status body =>
        if status == 404 then ([], (config_entry_id, []) :: cache, 0, 1)
        else if isHttpError status then ([], (config_entry_id, []) :: cache, 1, 1)
        else
          match body with
          | .error _ => ([], (config_entry_id, []) :: cache, 1, 1)
          | .ok payload =>
            let fmts := extractSupportedFormats payload
            (fmts, (config_entry_id, fmts) :: cache, 0, 1)

/-- The entry extraction of source lines 172-174: the parsed body must be a
dict; the entry is its `data` field when that key is present and the body
itself otherwise, and must itself be a dict. -/
def extractedEntry (payload : JSON) : Option JSON :=
  match payload with
  | .obj fs =>
    match (if hasKey fs "data" then objGetD fs "data" .null else .obj fs) with
    | .obj efs => some (.obj efs)
    | _ => none
  | _ => none

/-- Source lines 170-183 applied to the final response object (after the
405 fallback): on an ok response, parse the body and extract, cache and
return the entry; a failing parse is caught with a warning; a non-ok
response or a non-dict body/entry silently yields `none`. -/
def singleEntryFromResponse (cache : RegCache) (entity_id : String)
    (calls : Nat) (status2 : Nat) (body2 : Except Unit JSON) :
    Option JSON × RegCache × Nat × Nat :=
  if isHttpError status2 then (none, cache, 0, calls)
  else
    match body2 with
    | .error _ => (none, cache, 1, calls)
    | .ok payload =>
      match extractedEntry payload with
      | some e => (some e, (.str entity_id, e) :: cache, 0, calls)
      | none => (none, cache, 0, calls)

/-- `fetch_single_registry_entry` (source lines 151-183), returning the
entry (or `none`), the updated registry cache, the number of warnings
printed to stderr, and the number of network calls issued. -/
def fetch_single_registry_entry (o : Oracle) (cache : RegCache)
    (entity_id : String) : Option JSON × RegCache × Nat × Nat :=
  match lookupReg cache (.str entity_id) with
  | some e => (some e, cache, 0, 0)
  | none =>
    match o.registryGetPost entity_id with
    | .transportError => (none, cache, 1, 1)
    | .response status body =>
      if status == 405 then
        match o.registryGetPath entity_id with
        | .transportError => (none, cache, 1, 2)
        | .response status2 body2 =>
            singleEntryFromResponse cache entity_id 2 status2 body2
      else singleEntryFromResponse cache entity_id 1 status body

/-- Python iteration `for entity in states`: a list yields its elements, a
dict its keys, a string its characters; other values raise `TypeError`. -/
def pyIter : JSON → Except Unit (List JSON)
  | .arr xs => .ok xs
  | .obj fs => .ok (fs.map (fun kv => .str kv.1))
  | .str s => .ok (s.toList.map (fun c => .str (String.mk [c])))
  | _ => .error ()

/-- Source line 207: `registry_entry.get('platform')` guarded by an
`isinstance` check, defaulting to `None`. -/
def registryPlatformOf (registryEntry : Option JSON) : JSON :=
  match registryEntry with
  | some (.obj efs) => objGetD efs "platform" .null
  | _ => .null

/-- Source lines 208-212: `registry_entry.get('config_entry_id')` guarded
by an `isinstance` check, defaulting to `None`. -/
def registryConfigEntryOf (registryEntry : Option JSON) : JSON :=
  match registryEntry with
  | some (.obj efs) => objGetD efs "config_entry_id" .null
  | _ => .null

/-- The body of the `for entity in states` loop (source lines 197-229) for
one entity, threading the two caches and the accumulated player list.
Raises when `entity` is not a dict, when its `entity_id` value is not a
string, or when a media-player-prefixed entity carries a non-dict
`attributes` value. -/
def processEntity (o : Oracle) (regSet : List JSON) (rc : RegCache)
    (dc : DiagCache) (acc : List JSON) (entity : JSON) :
    Except Unit (RegCache × DiagCache × List JSON) :=
  match entity with
  | .obj fs =>
    match objGetD fs "entity_id" (.str "") with
    | .str eid =>
      if !(strStartswith eid "media_player.") then .ok (rc, dc, acc)
      else
        match objGetD fs "attributes" (.obj []) with
        | .obj attrs =>
          let attribution := objGetD attrs "attribution" .null
          let fetched := fetch_single_registry_entry o rc eid
          let registryEntry := fetched.1
          let rc2 := fetched.2.1
          let platform := registryPlatformOf registryEntry
          let configEntryId := registryConfigEntryOf registryEntry
          if isStrEq attribution "ESPHome"
              || regSet.any (fun v => pyEq v (.str eid))
              || isStrEq (objGetD attrs "platform" .null) "esphome"
              || isStrEq platform "esphome" then
            let diag := fetch_esphome_supported_formats o dc configEntryId
            let record := JSON.obj
              [("entity_id", .str eid),
               ("friendly_name", objGetD attrs "friendly_name" (.str eid)),
               ("state", objGetD fs "state" .null),
               ("supported_features", objGetD attrs "supported_features" (.num 0)),
               ("config_entry_id", configEntryId),
               ("esphome_supported_formats", .arr diag.1)]
            .ok (rc2, diag.2.1, acc ++ [record])
          else .ok (rc2, dc, acc)
        | _ => .error ()
    | _ => .error ()
  | _ => .error ()

/-- The whole `for entity in states` loop. -/
def discoverLoop (o : Oracle) (regSet : List JSON) :
    RegCache → DiagCache → List JSON → List JSON →
    Except Unit (RegCache × DiagCache × List JSON)
  | rc, dc, acc, [] => .ok (rc, dc, acc)
  | rc, dc, acc, e :: rest => do
      let st ← processEntity o regSet rc dc acc e
      discoverLoop o regSet st.1 st.2.1 st.2.2 rest

/-- `discover_esphome_players` (source lines 24-238): bulk registry fetch
first (into fresh caches), then the `/states` snapshot; any exception in
the `try` block — a transport error, `raise_for_status` on an error
status, a failing `.json()` parse, or a raise while iterating or
processing the snapshot — is caught and yields `[]`. -/
def discover_esphome_players (o : Oracle) : List JSON :=
  let bulk := fetch_entity_registry_media_players o []
  match o.states with
  | .transportError => []
  | .response status body =>
    if isHttpError status then []
    else
      match body with
      | .error _ => []
      | .ok payload =>
        match pyIter payload with
        | .error _ => []
        | .ok entities =>
          match discoverLoop o bulk.1 bulk.2.1 [] [] entities with
          | .error _ => []
          | .ok st => st.2.2

/-- One line printed by `main` (content abstracted to its shape). -/
inductive OutLine where
  | jsonOut (v : JSON)
  | foundCount (n : Nat)
  | deviceSummary (name : JSON) (eid : JSON)
  | errNoToken
  | noneFound
deriving Repr

/-- `main` (source lines 240-259) as (stdout lines, stderr lines, exit
status).  Warnings that the fetch helpers print to stderr during discovery
are accounted for by the warning counters of those functions and are not
repeated here.  Source lines 254-256 print with no `file=sys.stderr`, so
the found-count and per-device summary lines land on stdout. -/
def mainRun (tokenPresent : Bool) (o : Oracle) :
    List OutLine × List OutLine × Nat :=
  if !tokenPresent then
    ([.jsonOut (.arr [])], [.errNoToken], 0)
  else
    let players := discover_esphome_players o
    if players.isEmpty then
      ([.jsonOut (.arr [])], [.noneFound], 0)
    else
      (OutLine.foundCount players.length ::
          players.map
            (fun p =>
              let name := match p with | .obj fs => objGetD fs "friendly_name" .null | _ => .null
              let eid := match p with | .obj fs => objGetD fs "entity_id" .null | _ => .null
              OutLine.deviceSummary name eid)
          ++ [.jsonOut (.arr players)],
        [], 0)

/-- First candidate in a resolution list that is a JSON list; candidates
that are absent or not lists are skipped. -/
def firstListCandidate : List (Option JSON) → List JSON
  | [] => []
  | some (.arr xs) :: _ => xs
  | _ :: rest => firstListCandidate rest

/-- The spec's description of the normalizer, stated independently of the
source's control flow: a list is returned as-is; for a mapping, the first
of `data`, `result.data`, `entries` that is a list; otherwise empty. -/
def normalizeResolutionSpec (p : JSON) : List JSON :=
  match p with
  | .arr xs => xs
  | .obj fs =>
      firstListCandidate
        [objGet fs "data",
         (match objGet fs "result" with
          | some (.obj rf) => objGet rf "data"
          | _ => none),
         objGet fs "entries"]
  | _ => []

/-- True when a registry entry cannot make the filter comprehension raise:
either it is not a dict (skipped), or its `entity_id` value (default `""`)
is a string. -/
def hasStringEntityId : JSON → Bool
  | .obj fs =>
    match objGetD fs "entity_id" (.str "") with
    | .str _ => true
    | _ => false
  | _ => true

/-- The declarative form of the bulk filter: keep the `entity_id` of dict
entries whose `entity_id` starts with `media_player.` and whose `platform`
equals `esphome`. -/
def keepEsphomeId : JSON → Option JSON
  | .obj fs =>
    match objGetD fs "entity_id" (.str "") with
    | .str s =>
      if strStartswith s "media_player." && isStrEq (objGetD fs "platform" .null) "esphome" then
        some (objGetD fs "entity_id" .null)
      else none
    | _ => none
  | _ => none

/-- The last entry of a normalized payload that the caching loop stores
under key `k`: a dict with a truthy `entity_id` equal (Python `==`) to `k`. -/
def lastKeyed : List JSON → JSON → Option JSON
  | [], _ => none
  | e :: rest, k =>
    match lastKeyed rest k with
    | some x => some x
    | none =>
      match e with
      | .obj fs =>
        let eid := objGetD fs "entity_id" .null
        if eid.truthy && pyEq eid k then some (JSON.obj fs) else none
      | _ => none

/-- The media-player entries reached by the diagnostics descent
`data.storage_data.media_player`, each level type-checked. -/
def diagMediaPlayers (p : JSON) : List JSON :=
  match p with
  | .obj fs =>
    match objGetD fs "data" .null with
    | .obj ds =>
      match objGetD ds "storage_data" .null with
      | .obj ss =>
        match objGetD ss "media_player" .null with
        | .arr mps => mps
        | _ => []
      | _ => []
    | _ => []
  | _ => []

/-- The `supported_formats` list of one media-player diagnostics entry
(empty when absent or not a list). -/
def mpFormats (mp : JSON) : List JSON :=
  match mp with
  | .obj fs =>
    match objGetD fs "supported_formats" .null with
    | .arr l => l
    | _ => []
  | _ => []

/-- A state-snapshot element that cannot raise inside the loop body: a dict
whose `entity_id` value (default `""`) is a string and, when that string is
media-player-prefixed, whose `attributes` value (default `{}`) is a dict. -/
def wfEntity : JSON → Bool
  | .obj fs =>
    match objGetD fs "entity_id" (.str "") with
    | .str s => !(strStartswith s "media_player.") || (objGetD fs "attributes" (.obj [])).isDict
    | _ => false
  | _ => false

/-- The `entity_id` string of a snapshot element, when reading it the way
the loop does yields a string. -/
def entityIdOf : JSON → Option String
  | .obj fs =>
    match objGetD fs "entity_id" (.str "") with
    | .str s => some s
    | _ => none
  | _ => none

/-- The `entity_id` string stored in an output record. -/
def recordId : JSON → Option String
  | .obj rfs =>
    match objGet rfs "entity_id" with
    | some (.str s) => some s
    | _ => none
  | _ => none

/-- An output record in the shape `discover_esphome_players` builds:
a dict with a media-player-prefixed string `entity_id` and a list-valued
`esphome_supported_formats`. -/
def goodRecord (r : JSON) : Prop :=
  ∃ rfs eid fmts, r = JSON.obj rfs ∧
    objGet rfs "entity_id" = some (.str eid) ∧
    strStartswith eid "media_player." = true ∧
    objGet rfs "esphome_supported_formats" = some (.arr fmts)

/-- A state entity representing an ESPHome media player identified by its
`attribution` attribute alone. -/
def entityKitchen : JSON := .obj
  [("entity_id", .str "media_player.kitchen"),
   ("state", .str "idle"),
   ("attributes", .obj [("attribution", .str "ESPHome"), ("friendly_name", .str "Kitchen")])]

/-- An environment where every registry and diagnostics endpoint reports
405/404 and the snapshot holds `entityKitchen` alone. -/
def oracle405 : Oracle :=
  { registryList := .response 405 (.error ())
    registryLegacy := .response 405 (.error ())
    registryGetPost := fun _ => .response 405 (.error ())
    registryGetPath := fun _ => .response 404 (.error ())
    diagnostics := fun _ => .response 404 (.error ())
    states := .response 200 (.ok (.arr [entityKitchen])) }

/-- The record `discover_esphome_players` assembles for `entityKitchen`
under `oracle405`. -/
def kitchenRecord : JSON := .obj
  [("entity_id", .str "media_player.kitchen"),
   ("friendly_name", .str "Kitchen"),
   ("state", .str "idle"),
   ("supported_features", .num 0),
   ("config_entry_id", .null),
   ("esphome_supported_formats", .arr [])]

/-- Like `oracle405`, but the snapshot carries a trailing non-dict element
after the valid ESPHome entity. -/
def oracleAbort : Oracle :=
  { oracle405 with states := .response 200 (.ok (.arr [entityKitchen, .num 42])) }

/-- Like `oracle405`, but the snapshot lists the same entity twice. -/
def oracleDup : Oracle :=
  { oracle405 with states := .response 200 (.ok (.arr [entityKitchen, entityKitchen])) }

/-- One supported-format mapping, as found in diagnostics payloads. -/
def fmtFlac : JSON := .obj [("format", .str "flac")]

/-- A well-shaped diagnostics payload with one media player offering
`fmtFlac` (plus one non-mapping element that must be dropped). -/
def diagPayload : JSON := .obj
  [("data", .obj
    [("storage_data", .obj
      [("media_player", .arr [.obj [("supported_formats", .arr [fmtFlac, .str "x"])]])])])]

/-- An environment whose diagnostics endpoint answers with HTTP 301 and a
well-shaped payload. -/
def oracleDiag301 : Oracle :=
  { oracle405 with diagnostics := fun _ => .response 301 (.ok diagPayload) }

/-- A registry entry whose `entity_id` is a number: evaluating
`startswith` on it raises inside the filter comprehension. -/
def badEidEntry : JSON := .obj [("entity_id", .num 5)]

/-- A well-formed ESPHome registry entry. -/
def goodRegEntry : JSON := .obj
  [("entity_id", .str "media_player.a"), ("platform", .str "esphome")]

/-- An environment where the bulk POST endpoint successfully returns a
payload containing `badEidEntry` before `goodRegEntry`. -/
def oracleBulkRaise : Oracle :=
  { oracle405 with
    registryList := .response 200 (.ok (.arr [badEidEntry, goodRegEntry]))
    registryLegacy := .response 405 (.error ()) }

/-- An environment whose point-lookup POST endpoint answers HTTP 500. -/
def oracle500 : Oracle :=
  { oracle405 with registryGetPost := fun _ => .response 500 (.ok .null) }

/-- A point-lookup response body carrying the entry under `data`. -/
def entryBody : JSON := .obj
  [("data", .obj [("entity_id", .str "media_player.x"), ("platform", .str "esphome")])]

/-- An environment whose point-lookup POST endpoint answers HTTP 301 with
`entryBody`. -/
def oracle301 : Oracle :=
  { oracle405 with registryGetPost := fun _ => .response 301 (.ok entryBody) }

/-- The registry entry contained in `entryBody` under `data`. -/
def entryInner : JSON := .obj
  [("entity_id", .str "media_player.x"), ("platform", .str "esphome")]

/-- A registry entry outside the media-player namespace: it never passes
the bulk filter, yet the caching loop stores it. -/
def entryLight : JSON := .obj
  [("entity_id", .str "light.l1"), ("platform", .str "esphome")]

/-- An environment where both bulk endpoints succeed; the first attempt
filters to empty (only `entryLight`) and is passed over, the second
returns `goodRegEntry`. -/
def oracleTwoBulk : Oracle :=
  { oracle405 with
    registryList := .response 200 (.ok (.arr [entryLight]))
    registryLegacy := .response 200 (.ok (.arr [goodRegEntry])) }

/-- Like `oracle405`, but the `/states` request itself fails. -/
def oracleStatesFail : Oracle :=
  { oracle405 with states := .transportError }

mutual

theorem pyEq_refl : (v : JSON) → pyEq v v = true
  | .null => rfl
  | .bool b => by simp [pyEq]
  | .num n => by simp [pyEq]
  | .str s => by simp [pyEq]
  | .arr xs => by simp [pyEq, pyEqList_refl xs]
  | .obj fs => by simp [pyEq, pyEqFields_refl fs]

theorem pyEqList_refl : (xs : List JSON) → pyEqList xs xs = true
  | [] => rfl
  | x :: xs => by simp [pyEqList, pyEq_refl x, pyEqList_refl xs]

theorem pyEqFields_refl : (fs : List (String × JSON)) → pyEqFields fs fs = true
  | [] => rfl
  | (k, v) :: fs => by simp [pyEqFields, pyEq_refl v, pyEqFields_refl fs]

end

theorem lookupDiag_cons_self (k : JSON) (v : List JSON) (c : DiagCache) :
    lookupDiag ((k, v) :: c) k = some v := by
  simp [lookupDiag, List.find?_cons, pyEq_refl k]

theorem lookupReg_cons_self (k : JSON) (v : JSON) (c : RegCache) :
    lookupReg ((k, v) :: c) k = some v := by
  simp [lookupReg, List.find?_cons, pyEq_refl k]

/-- C4: For every parsed JSON payload, the normalizer returns the payload
itself when it is a list; otherwise, when it is a mapping, the first of its
`data` field, its `result.data` field, and its `entries` field that is a
list, in that order; and the empty sequence in every other case (including
null and unrecognized mappings).  It never raises: it is a total function
of the payload. -/
theorem normalize_resolution_order (p : JSON) :
    normalize_registry_payload p = normalizeResolutionSpec p := by
  cases p with
  | obj fs =>
    simp only [normalize_registry_payload, normalizeResolutionSpec]
    have etail :
        (match objGet fs "entries" with
         | some (.arr xs) => xs
         | _ => ([] : List JSON)) = firstListCandidate [objGet fs "entries"] := by
      rcases h3 : objGet fs "entries" with _ | v3
      · simp [h3, firstListCandidate]
      · cases v3 <;> simp [h3, firstListCandidate]
    have tail :
        (match (match objGet fs "result" with
                | some (.obj rf) => objGet rf "data"
                | _ => none) with
         | some (.arr xs) => xs
         | _ =>
           match objGet fs "entries" with
           | some (.arr xs) => xs
           | _ => []) =
        firstListCandidate
          [(match objGet fs "result" with
            | some (.obj rf) => objGet rf "data"
            | _ => none),
           objGet fs "entries"] := by
      rcases h2 : (match objGet fs "result" with
                   | some (.obj rf) => objGet rf "data"
                   | _ => none) with _ | v2
      · simp [h2, firstListCandidate, etail]
      · cases v2 <;> simp [h2, firstListCandidate, etail]
    rcases h1 : objGet fs "data" with _ | v1
    · simp only [h1]
      rw [tail]
      simp [firstListCandidate]
    · cases v1 <;> simp only [h1] <;> try rw [tail]
      all_goals simp [firstListCandidate]
  | null => rfl
  | bool b => rfl
  | num n => rfl
  | str s => rfl
  | arr xs => rfl

/-- C1: `main` on a run that discovers one player.  Source lines 254-256
print the found-count line and the per-device summary line with no
`file=sys.stderr`, so they land on standard output ahead of the JSON
array: standard output is not a single JSON array on a successful run
with matches, contradicting the specified stream discipline. -/
theorem main_found_lines_on_stdout :
    mainRun true oracle405 =
      ([OutLine.foundCount 1,
        OutLine.deviceSummary (.str "Kitchen") (.str "media_player.kitchen"),
        OutLine.jsonOut (.arr [kitchenRecord])],
       [], 0) := rfl

/-- C9: for a present (truthy) `config_entry_id`, after any resolution the
identifier is in the diagnostics cache, and a resolution that finds the
identifier cached returns the cached sequence with no network call, no
warning, and no cache change — so at most one diagnostics request is ever
issued per identifier within a run. -/
theorem diagnostics_cached_once (o : Oracle) (dc : DiagCache) (cid : JSON)
    (h : cid.truthy = true) :
    (lookupDiag (fetch_esphome_supported_formats o dc cid).2.1 cid).isSome = true ∧
    (∀ fmts, lookupDiag dc cid = some fmts →
      fetch_esphome_supported_formats o dc cid = (fmts, dc, 0, 0)) := by
  constructor
  · unfold fetch_esphome_supported_formats
    rcases hl : lookupDiag dc cid with _ | fmts
    · rcases o.diagnostics cid with _ | ⟨s, b⟩
      · simp [h, hl, lookupDiag_cons_self]
      · rcases b with _ | p <;>
          simp only [h, hl, Bool.not_true, Bool.false_eq_true, if_false] <;>
          split <;>
          simp [lookupDiag_cons_self] <;>
          split <;>
          simp [lookupDiag_cons_self]
    · simp [h, hl]
  · intro fmts hf
    unfold fetch_esphome_supported_formats
    simp [h, hf]

theorem diagnostics_cached_once_witness :
    (lookupDiag
      (fetch_esphome_supported_formats oracle405 [] (.str "cfg")).2.1
      (.str "cfg")).isSome = true ∧
    fetch_esphome_supported_formats oracle405 [(.str "cfg", [fmtFlac])] (.str "cfg") =
      ([fmtFlac], [(.str "cfg", [fmtFlac])], 0, 0) :=
  ⟨(diagnostics_cached_once oracle405 [] (.str "cfg") rfl).1,
   (diagnostics_cached_once oracle405 [(.str "cfg", [fmtFlac])] (.str "cfg") rfl).2
     [fmtFlac] rfl⟩

theorem foldl_formats_join (mps : List JSON) (a : List JSON) :
    mps.foldl
      (fun acc mp =>
        let formats := match mp with | .obj fs => objGetD fs "supported_formats" .null | _ => .null
        match formats with
        | .arr fmts => acc ++ fmts.filter JSON.isDict
        | _ => acc)
      a = a ++ (mps.map (fun mp => (mpFormats mp).filter JSON.isDict)).join := by
  induction mps generalizing a with
  | nil => simp
  | cons mp rest ih =>
    simp only [List.foldl_cons, List.map_cons, List.join, ih]
    cases mp with
    | obj fs =>
      simp only [mpFormats]
      rcases objGetD fs "supported_formats" .null with _ | b | n | s | fmts | gs <;>
        simp [List.append_assoc]
    | null => simp [mpFormats]
    | bool b => simp [mpFormats]
    | num n => simp [mpFormats]
    | str s => simp [mpFormats]
    | arr xs => simp [mpFormats]

theorem extract_formats_join (p : JSON) :
    extractSupportedFormats p =
      ((diagMediaPlayers p).map (fun mp => (mpFormats mp).filter JSON.isDict)).join := by
  cases p with
  | obj fs =>
    simp only [extractSupportedFormats, diagMediaPlayers]
    rcases objGetD fs "data" .null with _ | b | n | s | xs | ds <;> try simp
    rcases objGetD ds "storage_data" .null with _ | b | n | s | xs | ss <;> try simp
    rcases objGetD ss "media_player" .null with _ | b | n | s | mps | gs <;> try simp
    exact foldl_formats_join mps []
  | null => rfl
  | bool b => rfl
  | num n => rfl
  | str s => rfl
  | arr xs => rfl

/-- C6 (amended): diagnostics resolution returns empty immediately with no
network call for an absent (falsy) `config_entry_id`; HTTP 404 caches
empty and returns empty without a warning; a transport error, an HTTP
error status (400-599) other than 404, or an unparseable body logs one
warning, caches empty, and returns empty; any other response — any status
outside 400-599, 3xx included — is treated as success and returns exactly
the mapping-typed elements of the `supported_formats` lists under
`data.storage_data.media_player`, in source order, concatenated across all
media players, with every descent step type-checked so a shape mismatch
yields (cached) empty. -/
theorem diagnostics_resolution_behavior :
    (∀ (o : Oracle) (dc : DiagCache) (cid : JSON), JSON.truthy cid = false →
        fetch_esphome_supported_formats o dc cid = ([], dc, 0, 0)) ∧
    (∀ (o : Oracle) (dc : DiagCache) (cid : JSON), JSON.truthy cid = true →
        lookupDiag dc cid = none → o.diagnostics cid = .transportError →
        fetch_esphome_supported_formats o dc cid = ([], (cid, []) :: dc, 1, 1)) ∧
    (∀ (o : Oracle) (dc : DiagCache) (cid : JSON) (b : Except Unit JSON),
        JSON.truthy cid = true → lookupDiag dc cid = none →
        o.diagnostics cid = .response 404 b →
        fetch_esphome_supported_formats o dc cid = ([], (cid, []) :: dc, 0, 1)) ∧
    (∀ (o : Oracle) (dc : DiagCache) (cid : JSON) (s : Nat) (b : Except Unit JSON),
        JSON.truthy cid = true → lookupDiag dc cid = none →
        o.diagnostics cid = .response s b → s ≠ 404 → isHttpError s = true →
        fetch_esphome_supported_formats o dc cid = ([], (cid, []) :: dc, 1, 1)) ∧
    (∀ (o : Oracle) (dc : DiagCache) (cid : JSON) (s : Nat),
        JSON.truthy cid = true → lookupDiag dc cid = none →
        o.diagnostics cid = .response s (.error ()) → isHttpError s = false →
        fetch_esphome_supported_formats o dc cid = ([], (cid, []) :: dc, 1, 1)) ∧
    (∀ (o : Oracle) (dc : DiagCache) (cid : JSON) (s : Nat) (p : JSON),
        JSON.truthy cid = true → lookupDiag dc cid = none →
        o.diagnostics cid = .response s (.ok p) → isHttpError s = false →
        fetch_esphome_supported_formats o dc cid =
          (extractSupportedFormats p, (cid, extractSupportedFormats p) :: dc, 0, 1)) ∧
    (∀ p : JSON, extractSupportedFormats p =
        ((diagMediaPlayers p).map (fun mp => (mpFormats mp).filter JSON.isDict)).join) := by
  refine ⟨?_, ?_, ?_, ?_, ?_, ?_, extract_formats_join⟩
  · intro o dc cid h
    unfold fetch_esphome_supported_formats
    simp [h]
  · intro o dc cid h hl hr
    unfold fetch_esphome_supported_formats
    simp [h, hl, hr]
  · intro o dc cid b h hl hr
    unfold fetch_esphome_supported_formats
    simp [h, hl, hr]
  · intro o dc cid s b h hl hr hne hhe
    unfold fetch_esphome_supported_formats
    have h404 : (s == 404) = false := by simp [hne]
    simp [h, hl, hr, h404, hhe]
  · intro o dc cid s h hl hr hhe
    unfold fetch_esphome_supported_formats
    have h404 : (s == 404) = false := by
      cases hb : (s == 404) with
      | false => rfl
      | true =>
        have hs : s = 404 := by simpa using hb
        subst hs
        simp [isHttpError] at hhe
    simp [h, hl, hr, h404, hhe]
  · intro o dc cid s p h hl hr hhe
    unfold fetch_esphome_supported_formats
    have h404 : (s == 404) = false := by
      cases hb : (s == 404) with
      | false => rfl
      | true =>
        have hs : s = 404 := by simpa using hb
        subst hs
        simp [isHttpError] at hhe
    simp [h, hl, hr, h404, hhe]

theorem diagnostics_resolution_behavior_witness :
    fetch_esphome_supported_formats oracle405 [] (.str "cfg") =
      ([], [(.str "cfg", [])], 0, 1) :=
  diagnostics_resolution_behavior.2.2.1 oracle405 [] (.str "cfg") (.error ())
    rfl rfl rfl

/-- C6 counterexample: the claim says every non-2xx status other than 404
logs a warning, caches empty, and returns empty, but on HTTP 301 with a
well-shaped payload the code logs nothing and returns (and caches) the
extracted formats. -/
theorem diagnostics_non2xx_counterexample :
    fetch_esphome_supported_formats oracleDiag301 [] (.str "cfg") =
      ([fmtFlac], [(.str "cfg", [fmtFlac])], 0, 1) := rfl

/-- C5 (amended): point registry resolution returns the cached entry when
one is present (no call, no warning, no cache change); otherwise it POSTs
the point-lookup endpoint and, exactly when that returns 405, retries via
the GET path-parameterized variant; the final response is processed by
`singleEntryFromResponse`: on a non-error status (outside 400-599, so 2xx
or 3xx) it extracts the entry as the body's `data` field when that key is
present and the body itself otherwise, and, when that entry is a mapping,
caches it under the queried entity id and returns it; a transport error or
an unparseable body logs one warning and returns absent; an HTTP error
status (400-599, after the 405 handling) or a non-mapping body/entry
returns absent without logging a warning. -/
theorem single_entry_resolution_behavior :
    (∀ (o : Oracle) (c : RegCache) (eid : String) (e : JSON),
        lookupReg c (.str eid) = some e →
        fetch_single_registry_entry o c eid = (some e, c, 0, 0)) ∧
    (∀ (o : Oracle) (c : RegCache) (eid : String),
        lookupReg c (.str eid) = none → o.registryGetPost eid = .transportError →
        fetch_single_registry_entry o c eid = (none, c, 1, 1)) ∧
    (∀ (o : Oracle) (c : RegCache) (eid : String) (b : Except Unit JSON),
        lookupReg c (.str eid) = none → o.registryGetPost eid = .response 405 b →
        o.registryGetPath eid = .transportError →
        fetch_single_registry_entry o c eid = (none, c, 1, 2)) ∧
    (∀ (o : Oracle) (c : RegCache) (eid : String) (b : Except Unit JSON)
        (s2 : Nat) (b2 : Except Unit JSON),
        lookupReg c (.str eid) = none → o.registryGetPost eid = .response 405 b →
        o.registryGetPath eid = .response s2 b2 →
        fetch_single_registry_entry o c eid = singleEntryFromResponse c eid 2 s2 b2) ∧
    (∀ (o : Oracle) (c : RegCache) (eid : String) (s : Nat) (b : Except Unit JSON),
        lookupReg c (.str eid) = none → o.registryGetPost eid = .response s b →
        s ≠ 405 →
        fetch_single_registry_entry o c eid = singleEntryFromResponse c eid 1 s b) ∧
    (∀ (c : RegCache) (eid : String) (calls s : Nat) (b : Except Unit JSON),
        isHttpError s = true →
        singleEntryFromResponse c eid calls s b = (none, c, 0, calls)) ∧
    (∀ (c : RegCache) (eid : String) (calls s : Nat),
        isHttpError s = false →
        singleEntryFromResponse c eid calls s (.error ()) = (none, c, 1, calls)) ∧
    (∀ (c : RegCache) (eid : String) (calls s : Nat) (p e : JSON),
        isHttpError s = false → extractedEntry p = some e →
        singleEntryFromResponse c eid calls s (.ok p) =
          (some e, (.str eid, e) :: c, 0, calls)) ∧
    (∀ (c : RegCache) (eid : String) (calls s : Nat) (p : JSON),
        isHttpError s = false → extractedEntry p = none →
        singleEntryFromResponse c eid calls s (.ok p) = (none, c, 0, calls)) := by
  refine ⟨?_, ?_, ?_, ?_, ?_, ?_, ?_, ?_, ?_⟩
  · intro o c eid e hl
    unfold fetch_single_registry_entry
    simp [hl]
  · intro o c eid hl hr
    unfold fetch_single_registry_entry
    simp [hl, hr]
  · intro o c eid b hl hr hp
    unfold fetch_single_registry_entry
    simp [hl, hr, hp]
  · intro o c eid b s2 b2 hl hr hp
    unfold fetch_single_registry_entry
    simp [hl, hr, hp]
  · intro o c eid s b hl hr hne
    unfold fetch_single_registry_entry
    have h405 : (s == 405) = false := by simp [hne]
    simp [hl, hr, h405]
  · intro c eid calls s b hhe
    unfold singleEntryFromResponse
    simp [hhe]
  · intro c eid calls s hhe
    unfold singleEntryFromResponse
    simp [hhe]
  · intro c eid calls s p e hhe hx
    unfold singleEntryFromResponse
    simp [hhe, hx]
  · intro c eid calls s p hhe hx
    unfold singleEntryFromResponse
    simp [hhe, hx]

theorem single_entry_resolution_behavior_witness :
    fetch_single_registry_entry oracle405 [(.str "media_player.x", entryInner)]
      "media_player.x" = (some entryInner, [(.str "media_player.x", entryInner)], 0, 0) :=
  single_entry_resolution_behavior.1 oracle405 [(.str "media_player.x", entryInner)]
    "media_player.x" entryInner rfl

/-- C5 counterexample: the claim says a non-2xx response logs a warning
and returns absent, but on HTTP 500 the code returns absent with zero
warnings, and on HTTP 301 (also non-2xx) it extracts, caches, and returns
the entry. -/
theorem single_entry_claim_counterexample :
    fetch_single_registry_entry oracle500 [] "media_player.x" = (none, [], 0, 1) ∧
    fetch_single_registry_entry oracle301 [] "media_player.x" =
      (some entryInner, [(.str "media_player.x", entryInner)], 0, 1) :=
  ⟨rfl, rfl⟩

theorem registryFilter_filterMap (entries : List JSON)
    (h : ∀ e ∈ entries, hasStringEntityId e = true) :
    registryFilter entries = .ok (entries.filterMap keepEsphomeId) := by
  induction entries with
  | nil => rfl
  | cons e rest ih =>
    have hrest := ih (fun x hx => h x (List.mem_cons_of_mem e hx))
    have he := h e (List.mem_cons_self e rest)
    cases e with
    | obj fs =>
      cases heid : objGetD fs "entity_id" (.str "") with
      | str s =>
        by_cases hc :
            (strStartswith s "media_player." &&
              isStrEq (objGetD fs "platform" .null) "esphome") = true
        · rw [Bool.and_eq_true] at hc
          obtain ⟨hc1, hc2⟩ := hc
          simp [registryFilter, heid, pyStartswith, hrest, Bind.bind, Except.bind,
            List.filterMap_cons, keepEsphomeId, hc1, hc2, pure, Except.pure]
        · simp only [Bool.not_eq_true] at hc
          have hcp : ¬(strStartswith s "media_player." = true ∧
              isStrEq (objGetD fs "platform" .null) "esphome" = true) := by
            rw [← Bool.and_eq_true, hc]
            simp
          simp [registryFilter, heid, pyStartswith, hrest, Bind.bind, Except.bind,
            List.filterMap_cons, keepEsphomeId, hcp, hc, pure, Except.pure]
      | null => simp [hasStringEntityId, heid] at he
      | bool b => simp [hasStringEntityId, heid] at he
      | num n => simp [hasStringEntityId, heid] at he
      | arr xs => simp [hasStringEntityId, heid] at he
      | obj gs => simp [hasStringEntityId, heid] at he
    | null => simp [registryFilter, hrest, List.filterMap_cons, keepEsphomeId]
    | bool b => simp [registryFilter, hrest, List.filterMap_cons, keepEsphomeId]
    | num n => simp [registryFilter, hrest, List.filterMap_cons, keepEsphomeId]
    | str s => simp [registryFilter, hrest, List.filterMap_cons, keepEsphomeId]
    | arr xs => simp [registryFilter, hrest, List.filterMap_cons, keepEsphomeId]

/-- C3: bulk registry resolution tries exactly the POST bulk-list endpoint
and then the GET legacy endpoint, in that order; a 405 advances without a
warning; a transport error, an HTTP error status, an unparseable body, or
a raising filter comprehension logs one warning and advances; a successful
response is normalized and (when no entry raises, i.e. every mapping entry
has a string-or-absent `entity_id`) filtered to the ids of entries with the
`media_player.` prefix and platform `esphome`; the result is the filtered
list of the first attempt whose filtered list is non-empty, and empty when
both attempts fail or filter to empty. -/
theorem bulk_registry_fallback :
    (∀ (c : RegCache), registryAttempt .transportError c = .next c true) ∧
    (∀ (c : RegCache) (b : Except Unit JSON),
        registryAttempt (.response 405 b) c = .next c false) ∧
    (∀ (c : RegCache) (s : Nat) (b : Except Unit JSON), s ≠ 405 →
        isHttpError s = true → registryAttempt (.response s b) c = .next c true) ∧
    (∀ (c : RegCache) (s : Nat), s ≠ 405 → isHttpError s = false →
        registryAttempt (.response s (.error ())) c = .next c true) ∧
    (∀ (c : RegCache) (s : Nat) (p : JSON), s ≠ 405 → isHttpError s = false →
        registryFilter (normalize_registry_payload p) = .error () →
        registryAttempt (.response s (.ok p)) c = .next c true) ∧
    (∀ (c : RegCache) (s : Nat) (p : JSON) (ids : List JSON), s ≠ 405 →
        isHttpError s = false →
        registryFilter (normalize_registry_payload p) = .ok ids →
        registryAttempt (.response s (.ok p)) c =
          (if ids.isEmpty then .next (cacheEntries (normalize_registry_payload p) c) false
           else .stop ids (cacheEntries (normalize_registry_payload p) c))) ∧
    (∀ (entries : List JSON), (∀ e ∈ entries, hasStringEntityId e = true) →
        registryFilter entries = .ok (entries.filterMap keepEsphomeId)) ∧
    (∀ (r : HttpResult) (c : RegCache) (ids : List JSON) (c2 : RegCache),
        registryAttempt r c = .stop ids c2 → ids ≠ []) ∧
    (∀ (o : Oracle) (c : RegCache) (ids : List JSON) (c2 : RegCache),
        registryAttempt o.registryList c = .stop ids c2 →
        fetch_entity_registry_media_players o c = (ids, c2, 0, 1)) ∧
    (∀ (o : Oracle) (c c1 : RegCache) (w1 : Bool) (ids : List JSON) (c2 : RegCache),
        registryAttempt o.registryList c = .next c1 w1 →
        registryAttempt o.registryLegacy c1 = .stop ids c2 →
        fetch_entity_registry_media_players o c =
          (ids, c2, if w1 then 1 else 0, 2)) ∧
    (∀ (o : Oracle) (c c1 : RegCache) (w1 : Bool) (c2 : RegCache) (w2 : Bool),
        registryAttempt o.registryList c = .next c1 w1 →
        registryAttempt o.registryLegacy c1 = .next c2 w2 →
        fetch_entity_registry_media_players o c =
          ([], c2, (if w1 then 1 else 0) + (if w2 then 1 else 0), 2)) := by
  refine ⟨?_, ?_, ?_, ?_, ?_, ?_, registryFilter_filterMap, ?_, ?_, ?_, ?_⟩
  · intro c
    rfl
  · intro c b
    rfl
  · intro c s b hne hhe
    have h405 : (s == 405) = false := by simp [hne]
    simp [registryAttempt, h405, hhe]
  · intro c s hne hhe
    have h405 : (s == 405) = false := by simp [hne]
    simp [registryAttempt, h405, hhe]
  · intro c s p hne hhe hf
    have h405 : (s == 405) = false := by simp [hne]
    simp [registryAttempt, h405, hhe, hf]
  · intro c s p ids hne hhe hf
    have h405 : (s == 405) = false := by simp [hne]
    simp [registryAttempt, h405, hhe, hf]
  · intro r c ids c2 hr
    unfold registryAttempt at hr
    rcases r with _ | ⟨s, b⟩
    · simp at hr
    · by_cases h405 : (s == 405) = true
      · simp [h405] at hr
      · simp only [h405, if_false, Bool.false_eq_true] at hr
        by_cases hhe : isHttpError s = true
        · simp [hhe] at hr
        · simp only [Bool.not_eq_true] at hhe
          simp only [hhe, if_false, Bool.false_eq_true] at hr
          rcases b with _ | p
          · simp at hr
          · rcases hf : registryFilter (normalize_registry_payload p) with _ | ids2
            · simp [hf] at hr
            · simp only [hf] at hr
              by_cases hemp : ids2.isEmpty = true
              · simp [hemp] at hr
              · simp only [hemp, if_false, Bool.false_eq_true] at hr
                cases hr with
                | refl =>
                  intro hnil
                  subst hnil
                  simp at hemp
  · intro o c ids c2 hstop
    unfold fetch_entity_registry_media_players
    simp [hstop]
  · intro o c c1 w1 ids c2 h1 h2
    unfold fetch_entity_registry_media_players
    simp [h1, h2]
  · intro o c c1 w1 c2 w2 h1 h2
    unfold fetch_entity_registry_media_players
    simp [h1, h2]

theorem bulk_registry_fallback_witness :
    fetch_entity_registry_media_players oracle405 [] = ([], [], 0, 2) :=
  bulk_registry_fallback.2.2.2.2.2.2.2.2.2.2 oracle405 [] [] false [] false rfl rfl

theorem lookupReg_cons (kk v k : JSON) (c : RegCache) :
    lookupReg ((kk, v) :: c) k = if pyEq kk k then some v else lookupReg c k := by
  by_cases h : pyEq kk k = true
  · simp [lookupReg, List.find?_cons_of_pos, h]
  · simp only [Bool.not_eq_true] at h
    simp [lookupReg, List.find?_cons_of_neg, h]

theorem lookupReg_cacheEntries (entries : List JSON) (c : RegCache) (k : JSON) :
    lookupReg (cacheEntries entries c) k =
      (match lastKeyed entries k with
       | some e => some e
       | none => lookupReg c k) := by
  induction entries generalizing c with
  | nil => simp [cacheEntries, lastKeyed]
  | cons e rest ih =>
    cases e with
    | obj fs =>
      simp only [cacheEntries, List.foldl_cons] at *
      by_cases ht : (objGetD fs "entity_id" .null).truthy = true
      · simp only [ht, if_true]
        rw [ih]
        rcases hlk : lastKeyed rest k with _ | x
        · simp only [lastKeyed, hlk, lookupReg_cons, ht, Bool.true_and]
          by_cases hk : pyEq (objGetD fs "entity_id" .null) k = true
          · simp [hk]
          · simp only [Bool.not_eq_true] at hk
            simp [hk]
        · simp [lastKeyed, hlk]
      · simp only [Bool.not_eq_true] at ht
        simp only [ht, Bool.false_eq_true, if_false]
        rw [ih]
        rcases hlk : lastKeyed rest k with _ | x
        · simp [lastKeyed, hlk, ht]
        · simp [lastKeyed, hlk]
    | null =>
      simp only [cacheEntries, List.foldl_cons] at *
      rw [ih]
      rcases hlk : lastKeyed rest k with _ | x <;> simp [lastKeyed, hlk]
    | bool b =>
      simp only [cacheEntries, List.foldl_cons] at *
      rw [ih]
      rcases hlk : lastKeyed rest k with _ | x <;> simp [lastKeyed, hlk]
    | num n =>
      simp only [cacheEntries, List.foldl_cons] at *
      rw [ih]
      rcases hlk : lastKeyed rest k with _ | x <;> simp [lastKeyed, hlk]
    | str s =>
      simp only [cacheEntries, List.foldl_cons] at *
      rw [ih]
      rcases hlk : lastKeyed rest k with _ | x <;> simp [lastKeyed, hlk]
    | arr xs =>
      simp only [cacheEntries, List.foldl_cons] at *
      rw [ih]
      rcases hlk : lastKeyed rest k with _ | x <;> simp [lastKeyed, hlk]

/-- C10 (amended): during bulk registry resolution, after a successful
attempt whose filter comprehension completes without raising, the caching
loop stores every dict entry with a truthy `entity_id` keyed by that value
— also when the attempt's filtered list is empty and the attempt is passed
over — the last same-keyed entry of a payload winning, and entries cached
by the second attempt shadowing same-keyed entries cached by the first;
a subsequent point lookup for a cached entity id is served from the cache
with no network call, no warning, and no cache change. -/
theorem bulk_cache_behavior :
    (∀ (entries : List JSON) (c : RegCache) (k : JSON),
        lookupReg (cacheEntries entries c) k =
          (match lastKeyed entries k with
           | some e => some e
           | none => lookupReg c k)) ∧
    (∀ (o : Oracle) (c : RegCache) (s1 : Nat) (p1 : JSON) (s2 : Nat) (p2 : JSON)
        (ids2 : List JSON),
        o.registryList = .response s1 (.ok p1) → s1 ≠ 405 → isHttpError s1 = false →
        registryFilter (normalize_registry_payload p1) = .ok [] →
        o.registryLegacy = .response s2 (.ok p2) → s2 ≠ 405 → isHttpError s2 = false →
        registryFilter (normalize_registry_payload p2) = .ok ids2 →
        (fetch_entity_registry_media_players o c).2.1 =
          cacheEntries (normalize_registry_payload p2)
            (cacheEntries (normalize_registry_payload p1) c)) ∧
    (∀ (o : Oracle) (c : RegCache) (eid : String) (e : JSON),
        lookupReg c (.str eid) = some e →
        fetch_single_registry_entry o c eid = (some e, c, 0, 0)) := by
  refine ⟨lookupReg_cacheEntries, ?_, ?_⟩
  · intro o c s1 p1 s2 p2 ids2 h1 hne1 hhe1 hf1 h2 hne2 hhe2 hf2
    have h405a : (s1 == 405) = false := by simp [hne1]
    have h405b : (s2 == 405) = false := by simp [hne2]
    have a1 : registryAttempt o.registryList c =
        .next (cacheEntries (normalize_registry_payload p1) c) false := by
      simp [registryAttempt, h1, h405a, hhe1, hf1]
    have a2 : registryAttempt o.registryLegacy
          (cacheEntries (normalize_registry_payload p1) c) =
        (if ids2.isEmpty then
          .next (cacheEntries (normalize_registry_payload p2)
            (cacheEntries (normalize_registry_payload p1) c)) false
         else .stop ids2 (cacheEntries (normalize_registry_payload p2)
            (cacheEntries (normalize_registry_payload p1) c))) := by
      simp [registryAttempt, h2, h405b, hhe2, hf2]
    unfold fetch_entity_registry_media_players
    rw [a1]
    simp only [a2]
    by_cases hemp : ids2.isEmpty = true
    · simp [hemp]
    · simp only [Bool.not_eq_true] at hemp
      simp [hemp]
  · intro o c eid e hl
    unfold fetch_single_registry_entry
    simp [hl]

theorem bulk_cache_behavior_witness :
    (fetch_entity_registry_media_players oracleTwoBulk []).2.1 =
      cacheEntries [goodRegEntry] (cacheEntries [entryLight] []) ∧
    lookupReg (fetch_entity_registry_media_players oracleTwoBulk []).2.1
        (.str "light.l1") = some entryLight ∧
    fetch_single_registry_entry oracleTwoBulk
        (fetch_entity_registry_media_players oracleTwoBulk []).2.1 "light.l1" =
      (some entryLight, (fetch_entity_registry_media_players oracleTwoBulk []).2.1,
       0, 0) := by
  have hcache := bulk_cache_behavior.2.1 oracleTwoBulk [] 200 (.arr [entryLight])
    200 (.arr [goodRegEntry]) [.str "media_player.a"] rfl (by decide) rfl rfl
    rfl (by decide) rfl rfl
  refine ⟨hcache, ?_, ?_⟩
  · rw [hcache]
    exact (bulk_cache_behavior.1 [goodRegEntry] (cacheEntries [entryLight] [])
      (.str "light.l1")).trans (by rfl)
  · exact bulk_cache_behavior.2.2 oracleTwoBulk _ "light.l1" entryLight
      (by rw [hcache]; rfl)

/-- C10 counterexample: the first bulk endpoint successfully returns a
payload whose first entry has a numeric `entity_id`; the filter
comprehension raises on it before the caching loop runs, so the
well-formed `goodRegEntry` from that same successfully fetched response is
never stored (the final cache is empty), contradicting the claim. -/
theorem bulk_cache_counterexample :
    fetch_entity_registry_media_players oracleBulkRaise [] = ([], [], 1, 2) ∧
    goodRegEntry ∈ normalize_registry_payload (.arr [badEidEntry, goodRegEntry]) ∧
    JSON.isDict goodRegEntry = true ∧
    JSON.truthy (objGetD
      [("entity_id", .str "media_player.a"), ("platform", .str "esphome")]
      "entity_id" .null) = true ∧
    lookupReg [] (.str "media_player.a") = none := by
  refine ⟨rfl, ?_, rfl, rfl, rfl⟩
  simp [normalize_registry_payload]

theorem processEntity_skip (o : Oracle) (regSet : List JSON) (rc : RegCache)
    (dc : DiagCache) (acc : List JSON) (fs : List (String × JSON)) (eid : String)
    (h1 : objGetD fs "entity_id" (.str "") = .str eid)
    (hpre : strStartswith eid "media_player." = false) :
    processEntity o regSet rc dc acc (.obj fs) = .ok (rc, dc, acc) := by
  simp [processEntity, h1, hpre]

theorem processEntity_included (o : Oracle) (regSet : List JSON) (rc : RegCache)
    (dc : DiagCache) (acc : List JSON) (fs : List (String × JSON)) (eid : String)
    (attrs : List (String × JSON))
    (h1 : objGetD fs "entity_id" (.str "") = .str eid)
    (h2 : objGetD fs "attributes" (.obj []) = .obj attrs)
    (hpre : strStartswith eid "media_player." = true)
    (hcond : (isStrEq (objGetD attrs "attribution" .null) "ESPHome" ||
        regSet.any (fun v => pyEq v (.str eid)) ||
        isStrEq (objGetD attrs "platform" .null) "esphome" ||
        isStrEq (registryPlatformOf (fetch_single_registry_entry o rc eid).1)
          "esphome") = true) :
    processEntity o regSet rc dc acc (.obj fs) =
      .ok ((fetch_single_registry_entry o rc eid).2.1,
           (fetch_esphome_supported_formats o dc
             (registryConfigEntryOf (fetch_single_registry_entry o rc eid).1)).2.1,
           acc ++ [JSON.obj
             [("entity_id", .str eid),
              ("friendly_name", objGetD attrs "friendly_name" (.str eid)),
              ("state", objGetD fs "state" .null),
              ("supported_features", objGetD attrs "supported_features" (.num 0)),
              ("config_entry_id",
                registryConfigEntryOf (fetch_single_registry_entry o rc eid).1),
              ("esphome_supported_formats", .arr
                (fetch_esphome_supported_formats o dc
                  (registryConfigEntryOf
                    (fetch_single_registry_entry o rc eid).1)).1)]]) := by
  simp [processEntity, h1, h2, hpre, hcond]

theorem processEntity_excluded (o : Oracle) (regSet : List JSON) (rc : RegCache)
    (dc : DiagCache) (acc : List JSON) (fs : List (String × JSON)) (eid : String)
    (attrs : List (String × JSON))
    (h1 : objGetD fs "entity_id" (.str "") = .str eid)
    (h2 : objGetD fs "attributes" (.obj []) = .obj attrs)
    (hpre : strStartswith eid "media_player." = true)
    (hcond : (isStrEq (objGetD attrs "attribution" .null) "ESPHome" ||
        regSet.any (fun v => pyEq v (.str eid)) ||
        isStrEq (objGetD attrs "platform" .null) "esphome" ||
        isStrEq (registryPlatformOf (fetch_single_registry_entry o rc eid).1)
          "esphome") = false) :
    processEntity o regSet rc dc acc (.obj fs) =
      .ok ((fetch_single_registry_entry o rc eid).2.1, dc, acc) := by
  simp [processEntity, h1, h2, hpre, hcond]

/-- C2: for one snapshot entity (a dict with string `entity_id` and, when
media-player-prefixed, dict `attributes`), the loop body emits a record for
it if and only if its `entity_id` starts with `media_player.` AND at least
one signal holds: `attributes.attribution == 'ESPHome'`, membership of the
bulk registry set, `attributes.platform == 'esphome'`, or the point-lookup
registry entry's `platform == 'esphome'` — so an entity outside the
namespace is excluded whatever its attribution, and each single signal
alone suffices. -/
theorem discover_membership_signals (o : Oracle) (regSet : List JSON)
    (rc : RegCache) (dc : DiagCache) (acc : List JSON)
    (fs : List (String × JSON)) (eid : String) (attrs : List (String × JSON))
    (h1 : objGetD fs "entity_id" (.str "") = .str eid)
    (h2 : objGetD fs "attributes" (.obj []) = .obj attrs) :
    ∃ rc2 dc2 acc2,
      processEntity o regSet rc dc acc (.obj fs) = .ok (rc2, dc2, acc2) ∧
      ((∃ r, acc2 = acc ++ [r] ∧ recordId r = some eid) ↔
        (strStartswith eid "media_player." = true ∧
          (isStrEq (objGetD attrs "attribution" .null) "ESPHome" = true ∨
           regSet.any (fun v => pyEq v (.str eid)) = true ∨
           isStrEq (objGetD attrs "platform" .null) "esphome" = true ∨
           isStrEq (registryPlatformOf (fetch_single_registry_entry o rc eid).1)
             "esphome" = true))) := by
  by_cases hpre : strStartswith eid "media_player." = true
  · by_cases hcond : (isStrEq (objGetD attrs "attribution" .null) "ESPHome" ||
        regSet.any (fun v => pyEq v (.str eid)) ||
        isStrEq (objGetD attrs "platform" .null) "esphome" ||
        isStrEq (registryPlatformOf (fetch_single_registry_entry o rc eid).1)
          "esphome") = true
    · refine ⟨_, _, _,
        processEntity_included o regSet rc dc acc fs eid attrs h1 h2 hpre hcond, ?_⟩
      constructor
      · intro _
        refine ⟨hpre, ?_⟩
        simp only [Bool.or_eq_true] at hcond
        rcases hcond with ((h | h) | h) | h
        · exact Or.inl h
        · exact Or.inr (Or.inl h)
        · exact Or.inr (Or.inr (Or.inl h))
        · exact Or.inr (Or.inr (Or.inr h))
      · intro _
        exact ⟨_, rfl, rfl⟩
    · simp only [Bool.not_eq_true] at hcond
      refine ⟨_, _, _,
        processEntity_excluded o regSet rc dc acc fs eid attrs h1 h2 hpre hcond, ?_⟩
      constructor
      · rintro ⟨r, hr, _⟩
        have := congrArg List.length hr
        simp at this
      · rintro ⟨_, hsig⟩
        have hb : (isStrEq (objGetD attrs "attribution" .null) "ESPHome" ||
            regSet.any (fun v => pyEq v (.str eid)) ||
            isStrEq (objGetD attrs "platform" .null) "esphome" ||
            isStrEq (registryPlatformOf (fetch_single_registry_entry o rc eid).1)
              "esphome") = true := by
          rcases hsig with h | h | h | h <;> simp [h]
        rw [hcond] at hb
        exact absurd hb (by simp)
  · simp only [Bool.not_eq_true] at hpre
    refine ⟨_, _, _, processEntity_skip o regSet rc dc acc fs eid h1 hpre, ?_⟩
    constructor
    · rintro ⟨r, hr, _⟩
      have := congrArg List.length hr
      simp at this
    · rintro ⟨hp, _⟩
      rw [hpre] at hp
      exact absurd hp (by simp)

theorem discover_membership_signals_witness :
    ∃ rc2 dc2 acc2,
      processEntity oracle405 [] [] [] []
        (.obj [("entity_id", .str "media_player.kitchen"),
               ("state", .str "idle"),
               ("attributes", .obj [("attribution", .str "ESPHome"),
                                    ("friendly_name", .str "Kitchen")])]) =
        .ok (rc2, dc2, acc2) ∧
      ∃ r, acc2 = [] ++ [r] ∧ recordId r = some "media_player.kitchen" := by
  obtain ⟨rc2, dc2, acc2, hpe, hiff⟩ :=
    discover_membership_signals oracle405 [] [] [] []
      [("entity_id", .str "media_player.kitchen"),
       ("state", .str "idle"),
       ("attributes", .obj [("attribution", .str "ESPHome"),
                            ("friendly_name", .str "Kitchen")])]
      "media_player.kitchen"
      [("attribution", .str "ESPHome"), ("friendly_name", .str "Kitchen")]
      rfl rfl
  exact ⟨rc2, dc2, acc2, hpe, hiff.2 ⟨rfl, Or.inl rfl⟩⟩

theorem processEntity_acc (o : Oracle) (regSet : List JSON) (rc : RegCache)
    (dc : DiagCache) (acc : List JSON) (e : JSON)
    (st : RegCache × DiagCache × List JSON)
    (h : processEntity o regSet rc dc acc e = .ok st) :
    st.2.2 = acc ∨
    ∃ r eid, st.2.2 = acc ++ [r] ∧ goodRecord r ∧ recordId r = some eid ∧
      entityIdOf e = some eid := by
  cases e with
  | obj fs =>
    cases heid : objGetD fs "entity_id" (.str "") with
    | str eid =>
      by_cases hpre : strStartswith eid "media_player." = true
      · cases hattr : objGetD fs "attributes" (.obj []) with
        | obj attrs =>
          by_cases hcond : (isStrEq (objGetD attrs "attribution" .null) "ESPHome" ||
              regSet.any (fun v => pyEq v (.str eid)) ||
              isStrEq (objGetD attrs "platform" .null) "esphome" ||
              isStrEq (registryPlatformOf (fetch_single_registry_entry o rc eid).1)
                "esphome") = true
          · rw [processEntity_included o regSet rc dc acc fs eid attrs heid hattr
              hpre hcond] at h
            injection h with h
            subst h
            refine Or.inr ⟨_, eid, rfl, ?_, rfl, by simp [entityIdOf, heid]⟩
            exact ⟨_, eid, _, rfl, rfl, hpre, rfl⟩
          · simp only [Bool.not_eq_true] at hcond
            rw [processEntity_excluded o regSet rc dc acc fs eid attrs heid hattr
              hpre hcond] at h
            injection h with h
            subst h
            exact Or.inl rfl
        | null => simp [processEntity, heid, hattr, hpre] at h
        | bool b => simp [processEntity, heid, hattr, hpre] at h
        | num n => simp [processEntity, heid, hattr, hpre] at h
        | str s => simp [processEntity, heid, hattr, hpre] at h
        | arr xs => simp [processEntity, heid, hattr, hpre] at h
      · simp only [Bool.not_eq_true] at hpre
        rw [processEntity_skip o regSet rc dc acc fs eid heid hpre] at h
        injection h with h
        subst h
        exact Or.inl rfl
    | null => simp [processEntity, heid] at h
    | bool b => simp [processEntity, heid] at h
    | num n => simp [processEntity, heid] at h
    | arr xs => simp [processEntity, heid] at h
    | obj gs => simp [processEntity, heid] at h
  | null => simp [processEntity] at h
  | bool b => simp [processEntity] at h
  | num n => simp [processEntity] at h
  | str s => simp [processEntity] at h
  | arr xs => simp [processEntity] at h

theorem discoverLoop_acc (o : Oracle) (regSet : List JSON) (entities : List JSON) :
    ∀ (rc : RegCache) (dc : DiagCache) (acc : List JSON)
      (st : RegCache × DiagCache × List JSON),
      discoverLoop o regSet rc dc acc entities = .ok st →
      ∃ tail, st.2.2 = acc ++ tail ∧ (∀ r ∈ tail, goodRecord r) ∧
        List.Sublist (tail.filterMap recordId) (entities.filterMap entityIdOf) := by
  induction entities with
  | nil =>
    intro rc dc acc st h
    simp only [discoverLoop] at h
    injection h with h
    subst h
    exact ⟨[], by simp, by simp, by simp⟩
  | cons e rest ih =>
    intro rc dc acc st h
    simp only [discoverLoop] at h
    rcases hpe : processEntity o regSet rc dc acc e with err | st1
    · rw [hpe] at h
      simp [Bind.bind, Except.bind] at h
    · rw [hpe] at h
      simp only [Bind.bind, Except.bind] at h
      obtain ⟨tail1, htail1, hgood1, hsub1⟩ := ih st1.1 st1.2.1 st1.2.2 st h
      rcases processEntity_acc o regSet rc dc acc e st1 hpe with
        hsame | ⟨r, eid, happ, hgr, hrid, heid⟩
      · refine ⟨tail1, by rw [htail1, hsame], hgood1, ?_⟩
        rcases hid : entityIdOf e with _ | eid
        · simpa [List.filterMap_cons, hid] using hsub1
        · simp only [List.filterMap_cons, hid]
          exact hsub1.trans (List.sublist_cons_self _ _)
      · refine ⟨r :: tail1, ?_, ?_, ?_⟩
        · rw [htail1, happ]
          simp
        · intro x hx
          rcases List.mem_cons.mp hx with hx | hx
          · subst hx
            exact hgr
          · exact hgood1 x hx
        · simp only [List.filterMap_cons, hrid, heid]
          exact hsub1.cons₂ eid

theorem processEntity_wf (o : Oracle) (regSet : List JSON) (rc : RegCache)
    (dc : DiagCache) (acc : List JSON) (e : JSON) (h : wfEntity e = true) :
    ∃ st, processEntity o regSet rc dc acc e = .ok st := by
  cases e with
  | obj fs =>
    cases heid : objGetD fs "entity_id" (.str "") with
    | str eid =>
      by_cases hpre : strStartswith eid "media_player." = true
      · have hdict : (objGetD fs "attributes" (.obj [])).isDict = true := by
          simp only [wfEntity, heid, hpre, Bool.not_true, Bool.false_or] at h
          exact h
        cases hattr : objGetD fs "attributes" (.obj []) with
        | obj attrs =>
          by_cases hcond : (isStrEq (objGetD attrs "attribution" .null) "ESPHome" ||
              regSet.any (fun v => pyEq v (.str eid)) ||
              isStrEq (objGetD attrs "platform" .null) "esphome" ||
              isStrEq (registryPlatformOf (fetch_single_registry_entry o rc eid).1)
                "esphome") = true
          · exact ⟨_, processEntity_included o regSet rc dc acc fs eid attrs heid
              hattr hpre hcond⟩
          · simp only [Bool.not_eq_true] at hcond
            exact ⟨_, processEntity_excluded o regSet rc dc acc fs eid attrs heid
              hattr hpre hcond⟩
        | null => rw [hattr] at hdict; simp [JSON.isDict] at hdict
        | bool b => rw [hattr] at hdict; simp [JSON.isDict] at hdict
        | num n => rw [hattr] at hdict; simp [JSON.isDict] at hdict
        | str s => rw [hattr] at hdict; simp [JSON.isDict] at hdict
        | arr xs => rw [hattr] at hdict; simp [JSON.isDict] at hdict
      · simp only [Bool.not_eq_true] at hpre
        exact ⟨_, processEntity_skip o regSet rc dc acc fs eid heid hpre⟩
    | null => simp [wfEntity, heid] at h
    | bool b => simp [wfEntity, heid] at h
    | num n => simp [wfEntity, heid] at h
    | arr xs => simp [wfEntity, heid] at h
    | obj gs => simp [wfEntity, heid] at h
  | null => simp [wfEntity] at h
  | bool b => simp [wfEntity] at h
  | num n => simp [wfEntity] at h
  | str s => simp [wfEntity] at h
  | arr xs => simp [wfEntity] at h

theorem discoverLoop_wf (o : Oracle) (regSet : List JSON) (entities : List JSON) :
    ∀ (rc : RegCache) (dc : DiagCache) (acc : List JSON),
      (∀ e ∈ entities, wfEntity e = true) →
      ∃ st, discoverLoop o regSet rc dc acc entities = .ok st := by
  induction entities with
  | nil =>
    intro rc dc acc _
    exact ⟨_, rfl⟩
  | cons e rest ih =>
    intro rc dc acc h
    obtain ⟨st1, hst1⟩ :=
      processEntity_wf o regSet rc dc acc e (h e (List.mem_cons_self e rest))
    obtain ⟨st, hst⟩ :=
      ih st1.1 st1.2.1 st1.2.2 (fun x hx => h x (List.mem_cons_of_mem e hx))
    refine ⟨st, ?_⟩
    simp only [discoverLoop]
    rw [hst1]
    simpa [Bind.bind, Except.bind] using hst

/-- C7 (amended): for every environment, every record of the output is a
dict whose `entity_id` is a media-player-prefixed string and whose
`esphome_supported_formats` key is present and bound to a (possibly empty)
list; and whenever the state snapshot's entities carry pairwise-distinct
`entity_id` strings, no two output records share an `entity_id`. -/
theorem discover_invariants :
    (∀ (o : Oracle) (r : JSON), r ∈ discover_esphome_players o → goodRecord r) ∧
    (∀ (o : Oracle) (s : Nat) (entities : List JSON),
        o.states = .response s (.ok (.arr entities)) →
        (entities.filterMap entityIdOf).Nodup →
        ((discover_esphome_players o).filterMap recordId).Nodup) := by
  constructor
  · intro o r hr
    revert hr
    simp only [discover_esphome_players]
    rcases o.states with _ | ⟨s, b⟩
    · simp
    · by_cases hhe : isHttpError s = true
      · simp [hhe]
      · simp only [Bool.not_eq_true] at hhe
        simp only [hhe, Bool.false_eq_true, if_false]
        rcases b with _ | p
        · simp
        · rcases hpi : pyIter p with u | entities
          · simp [hpi]
          · simp only [hpi]
            rcases hloop : discoverLoop o
                (fetch_entity_registry_media_players o []).1
                (fetch_entity_registry_media_players o []).2.1 [] [] entities
                with err | st
            · simp [hloop]
            · simp only [hloop]
              obtain ⟨tail, htail, hgood, _⟩ :=
                  discoverLoop_acc o (fetch_entity_registry_media_players o []).1
                    entities (fetch_entity_registry_media_players o []).2.1 [] [] st
                    hloop
              intro hr
              refine hgood r ?_
              rw [← List.nil_append tail, ← htail]
              exact hr
  · intro o s entities hst hnd
    simp only [discover_esphome_players]
    rw [hst]
    by_cases hhe : isHttpError s = true
    · simp [hhe]
    · simp only [Bool.not_eq_true] at hhe
      simp only [hhe, Bool.false_eq_true, if_false]
      simp only [pyIter]
      rcases hloop : discoverLoop o
          (fetch_entity_registry_media_players o []).1
          (fetch_entity_registry_media_players o []).2.1 [] [] entities
          with err | st
      · simp
      · obtain ⟨tail, htail, _, hsub⟩ :=
          discoverLoop_acc o (fetch_entity_registry_media_players o []).1
            entities (fetch_entity_registry_media_players o []).2.1 [] [] st hloop
        simp only []
        rw [htail, List.nil_append]
        exact hsub.nodup hnd

theorem discover_invariants_witness :
    goodRecord kitchenRecord ∧
    ((discover_esphome_players oracle405).filterMap recordId).Nodup := by
  constructor
  · refine discover_invariants.1 oracle405 kitchenRecord ?_
    rw [show discover_esphome_players oracle405 = [kitchenRecord] from rfl]
    simp
  · refine discover_invariants.2 oracle405 200 [entityKitchen] rfl ?_
    rw [show ([entityKitchen].filterMap entityIdOf) = ["media_player.kitchen"]
      from rfl]
    simp

/-- C7 counterexample: a snapshot listing the same ESPHome entity twice
yields two output records with the same `entity_id`, so the no-duplicate
invariant fails over arbitrary snapshots. -/
theorem discover_duplicate_counterexample :
    discover_esphome_players oracleDup = [kitchenRecord, kitchenRecord] ∧
    recordId kitchenRecord = some "media_player.kitchen" := ⟨rfl, rfl⟩

/-- C8 (amended): failure of the `/states` request itself — a transport
error, an HTTP error status (400-599), or an unparseable body — aborts the
whole discovery and yields the empty output; and for a well-formed
snapshot (a list whose elements are dicts with string `entity_id` and,
when media-player-prefixed, dict `attributes`) the per-entity loop runs to
completion over every entity and its accumulated list is returned intact,
whatever every registry, point-lookup, or diagnostics endpoint does.  A
snapshot whose content raises during iteration (non-dict element,
non-string `entity_id`, or non-dict `attributes` on a media-player entity)
is a further abort condition beyond the claim's. -/
theorem discover_fatal_conditions :
    (∀ o : Oracle, o.states = .transportError → discover_esphome_players o = []) ∧
    (∀ (o : Oracle) (s : Nat) (b : Except Unit JSON), o.states = .response s b →
        isHttpError s = true → discover_esphome_players o = []) ∧
    (∀ (o : Oracle) (s : Nat), o.states = .response s (.error ()) →
        isHttpError s = false → discover_esphome_players o = []) ∧
    (∀ (o : Oracle) (s : Nat) (entities : List JSON),
        o.states = .response s (.ok (.arr entities)) → isHttpError s = false →
        (∀ e ∈ entities, wfEntity e = true) →
        ∃ st, discoverLoop o (fetch_entity_registry_media_players o []).1
            (fetch_entity_registry_media_players o []).2.1 [] [] entities =
              .ok st ∧
          discover_esphome_players o = st.2.2) := by
  refine ⟨?_, ?_, ?_, ?_⟩
  · intro o h
    simp [discover_esphome_players, h]
  · intro o s b h hhe
    simp [discover_esphome_players, h, hhe]
  · intro o s h hhe
    simp [discover_esphome_players, h, hhe]
  · intro o s entities h hhe hwf
    obtain ⟨st, hst⟩ := discoverLoop_wf o
      (fetch_entity_registry_media_players o []).1 entities
      (fetch_entity_registry_media_players o []).2.1 [] [] hwf
    refine ⟨st, hst, ?_⟩
    simp [discover_esphome_players, h, hhe, pyIter, hst]

theorem discover_fatal_conditions_witness :
    discover_esphome_players oracleStatesFail = [] ∧
    ∃ st, discoverLoop oracle405
        (fetch_entity_registry_media_players oracle405 []).1
        (fetch_entity_registry_media_players oracle405 []).2.1 [] []
        [entityKitchen] = .ok st ∧
      discover_esphome_players oracle405 = st.2.2 := by
  constructor
  · exact discover_fatal_conditions.1 oracleStatesFail rfl
  · refine discover_fatal_conditions.2.2.2 oracle405 200 [entityKitchen] rfl rfl ?_
    intro e he
    rw [List.mem_singleton.mp he]
    rfl

/-- C8 counterexample: with a fully successful `/states` fetch (HTTP 200,
parsed body), a trailing non-dict snapshot element raises inside the loop
and the already-matched ESPHome player is discarded: the result is empty
even though the `/states` call did not fail, so snapshot-fetch failure is
not the only abort condition. -/
theorem discover_abort_counterexample :
    discover_esphome_players oracleAbort = [] ∧
    discover_esphome_players oracle405 = [kitchenRecord] ∧
    oracleAbort.states = .response 200 (.ok (.arr [entityKitchen, .num 42])) :=
  ⟨rfl, rfl, rfl⟩

/-- C2 counterexample: under `oracleAbort` the snapshot contains an entity
that satisfies the namespace filter and the attribution signal, yet no
record for it appears in the output (a later malformed element raises and
discovery returns empty), so the inclusion direction of the claim's iff
fails over arbitrary snapshots. -/
theorem membership_claim_counterexample :
    oracleAbort.states = .response 200 (.ok (.arr [entityKitchen, .num 42])) ∧
    entityIdOf entityKitchen = some "media_player.kitchen" ∧
    strStartswith "media_player.kitchen" "media_player." = true ∧
    isStrEq (objGetD [("attribution", .str "ESPHome"),
        ("friendly_name", .str "Kitchen")] "attribution" .null) "ESPHome" = true ∧
    discover_esphome_players oracleAbort = [] :=
  ⟨rfl, rfl, rfl, rfl, rfl⟩
